import Mathlib

/-!
Shallow embedding of the digwebs dispatch core (`src/www/web.py`):
the middleware chain built by `fn_route`, the `wsgi` entry point with its
result translation and error translation, middleware initialization
(`init_middlewares`), and the `view` decorator.

Machinery from sibling modules of the repository that is not included
under `src/` (`errors.py`, `response.py`, `template.py`) is modelled from
the specification where a claim needs it; each such definition carries a
doc comment saying so.
-/

namespace Digwebs

/-- Exceptions that can reach the `wsgi` handler's `try`/`except` clauses.
`redirectError` and `httpError` are modelled from the spec: `errors.py` is
not under `src/`; per the spec a declared redirect failure carries a target
location and a status, and a declared HTTP error failure carries a status
line.  `indexError` models Python's `IndexError` from out-of-range list
indexing, `typeError` models calling a non-callable (`None`), and `other`
stands for any remaining unexpected failure. -/
inductive PyExn where
  | indexError
  | typeError
  | redirectError (location : String) (status : String)
  | httpError (status : String)
  | other (msg : String)
deriving DecidableEq

/-- Whether the exception is caught by the `except RedirectError` clause. -/
def PyExn.isRedirect : PyExn → Bool
  | .redirectError _ _ => true
  | _ => false

/-- Whether the exception is caught by the `except HttpError` clause. -/
def PyExn.isHttpError : PyExn → Bool
  | .httpError _ => true
  | _ => false

/-- Result of running a piece of Python code: a returned value or a raised
exception propagating out. -/
inductive Outcome (α : Type) where
  | ok (v : α)
  | exn (e : PyExn)
deriving DecidableEq

/-- Observable calls made during chain dispatch: `mw i` records that the
middleware at (sorted) index `i` was invoked, `term` that the terminal
continuation `next` was invoked. -/
inductive Event where
  | mw (i : Nat)
  | term
deriving DecidableEq

/-- A middleware callable `fn(context, next_cont)`, abstracted by what it
does with its continuation: never call it and return a value
(short-circuit), never call it and raise, call it once and return its
result unchanged, or call it once and post-process its result. -/
inductive Behavior (α : Type) where
  | shortCircuit (v : α)
  | passThrough
  | postProcess (f : α → α)
  | raiseExn (e : PyExn)

/-- Whether the middleware calls its continuation (exactly once). -/
def callsNext {α : Type} : Behavior α → Bool
  | .passThrough => true
  | .postProcess _ => true
  | _ => false

/-- How a middleware transforms the value returned by its continuation on
the way back out. -/
def postStep {α : Type} : Behavior α → α → α
  | .postProcess f, v => f v
  | _, v => v

/-- The recursive `dispatch(i)` closure inside `fn_route`'s `route_entry`,
given the suffix `self.middleware[i:]` of the sorted middleware list.
The Python body is

  fn = self.middleware[i][0]
  if i == len(self.middleware):
      fn = next
  return fn(context, lambda: dispatch(i + 1))

The first line indexes the list before the end-of-chain test, so when the
suffix is empty (`i == len(self.middleware)`) an `IndexError` is raised
and the rebinding `fn = next` on the following line never executes: the
`tnext` argument (the outcome of calling `next`) is unreachable. -/
def dispatch {α : Type} (tnext : Outcome α) : Nat → List (Behavior α) → List Event × Outcome α
  | _, [] => ([], .exn .indexError)
  | i, b :: rest =>
    match b with
    | .shortCircuit v => ([Event.mw i], .ok v)
    | .raiseExn e => ([Event.mw i], .exn e)
    | .passThrough =>
      let r := dispatch tnext (i + 1) rest
      (Event.mw i :: r.1, r.2)
    | .postProcess f =>
      let r := dispatch tnext (i + 1) rest
      (Event.mw i :: r.1,
        match r.2 with
        | .ok v => .ok (f v)
        | .exn e => .exn e)

/-- `route_entry(context, next)` as built by `fn_route`: run `dispatch(0)`
over the whole (sorted) middleware list.  Returns the trace of invoked
middleware/terminal together with the outcome. -/
def route_entry {α : Type} (mws : List (Behavior α)) (tnext : Outcome α) : List Event × Outcome α :=
  dispatch tnext 0 mws

/-- Modelled from the spec: `Template` (the `TemplateResult` marker) lives
in `template.py`, which is not under `src/`; per the spec it carries a
template identifier and a key/value model.  Field names follow the
attribute accesses `r.template_name` and `r.model` in `wsgi`. -/
structure Template where
  template_name : String
  model : List (String × String)
deriving DecidableEq

/-- A chunk of the WSGI response body.  Python lets both `bytes` and `str`
values through the returned list, so both are represented. -/
inductive Chunk where
  | bytes (data : List Nat)
  | text (s : String)
deriving DecidableEq

/-- A value returned by the middleware chain into `wsgi`'s result
translation: `None`, a `str`, a `Template`, or an already-iterable body
(passed through unchanged). -/
inductive PyVal where
  | none
  | str (s : String)
  | template (t : Template)
  | listVal (chunks : List Chunk)
deriving DecidableEq

/-- UTF-8 encoding of a single code point (`str.encode('utf-8')`,
per-character). -/
def utf8Char (c : Char) : List Nat :=
  let n := c.toNat
  if n < 128 then [n]
  else if n < 2048 then [192 + n / 64, 128 + n % 64]
  else if n < 65536 then [224 + n / 4096, 128 + n / 64 % 64, 128 + n % 64]
  else [240 + n / 262144, 128 + n / 4096 % 64, 128 + n / 64 % 64, 128 + n % 64]

/-- UTF-8 encoding of a string (`r.encode('utf-8')`). -/
def utf8 (s : String) : List Nat :=
  s.data.foldr (fun c acc => utf8Char c ++ acc) []

/-- Python's `s.replace(pat, rep)` for a single-character pattern. -/
def replaceChar (pat : Char) (rep : String) (s : String) : String :=
  ⟨s.data.foldr (fun c acc => if c = pat then rep.data ++ acc else c :: acc) []⟩

/-- `stacks.replace('<', '&lt;').replace('>', '&gt;')` from the
unexpected-fault branch of `wsgi`. -/
def htmlEscape (s : String) : String :=
  replaceChar '>' "&gt;" (replaceChar '<' "&lt;" s)

/-- The result-translation steps of `wsgi` (the `isinstance` cascade on
`r` after `fn_exec` returns): a `Template` is rendered through the
template engine and the rendered text becomes the single body chunk, a
`str` is UTF-8-encoded and becomes the single body chunk, `None` becomes
the empty body, and anything else is returned unchanged.  `render` is the
external template-rendering collaborator, modelled from the spec
(`template.py` is not under `src/`): it takes a template identifier and a
model and produces text. -/
def translate (render : String → List (String × String) → String) : PyVal → List Chunk
  | .template t => [Chunk.text (render t.template_name t.model)]
  | .str s => [Chunk.bytes (utf8 s)]
  | .none => []
  | .listVal chunks => chunks

/-- Modelled from the spec: the `Response` object (`response.py` is not
under `src/`) holds a string status line, defaulting to "200 OK", and an
ordered sequence of header key/value pairs, initially empty. -/
structure Response where
  status : String
  headers : List (String × String)
deriving DecidableEq

/-- Modelled from the spec: `set_header(name, value)` appends or
overwrites a header pair. -/
def Response.set_header (r : Response) (name value : String) : Response :=
  if r.headers.any (fun p => p.1 == name) then
    { r with headers := r.headers.map (fun p => if p.1 == name then (name, value) else p) }
  else
    { r with headers := r.headers ++ [(name, value)] }

/-- A freshly constructed `Response()` at the start of `wsgi`. -/
def defaultResponse : Response :=
  { status := "200 OK", headers := [] }

/-- What `wsgi` hands to the transport and does on the side: the status
line and headers given to `start_response`, the body list returned, the
number of log entries emitted by `wsgi` itself, and the number of times
the `finally` teardown (`del ctx.application/request/response`) ran. -/
structure WsgiResult where
  status : String
  headers : List (String × String)
  body : List Chunk
  logCount : Nat
  teardowns : Nat
deriving DecidableEq

/-- Literal head of the unexpected-fault HTML body in `wsgi`. -/
def fault500Head : String :=
  "<html><body><h1>500 Internal Server Error</h1><div style=\"font-family:Monaco, Menlo, Consolas, 'Courier New', monospace;\"><pre>"

/-- Literal tail of the unexpected-fault HTML body in `wsgi`. -/
def fault500Tail : String :=
  "</pre></div></body></html>"

/-- The `try`/`except` part of `wsgi`, applied to the outcome of
`fn_exec(ctx, None)` with the fresh response `resp`.  The clauses mirror
the source order: normal return goes through `translate`, then
`except RedirectError`, then `except HttpError`, then the catch-all
`except Exception` which logs once (`logging.exception`) and builds the
escaped-trace page.  `traceOf` abstracts the text `traceback.print_exception`
produces for the caught exception. -/
def wsgiTry (render : String → List (String × String) → String)
    (traceOf : PyExn → String) (resp : Response) : Outcome PyVal → WsgiResult
  | .ok v =>
    { status := resp.status, headers := resp.headers
      body := translate render v, logCount := 0, teardowns := 0 }
  | .exn (.redirectError location status) =>
    let resp2 := resp.set_header "Location" location
    { status := status, headers := resp2.headers, body := [], logCount := 0, teardowns := 0 }
  | .exn (.httpError status) =>
    { status := status, headers := resp.headers
      body := [Chunk.text "<html><body><h1>", Chunk.text status, Chunk.text "</h1></body></html>"]
      logCount := 0, teardowns := 0 }
  | .exn e =>
    { status := "500 Internal Server Error", headers := []
      body := [Chunk.text fault500Head, Chunk.text (htmlEscape (traceOf e)), Chunk.text fault500Tail]
      logCount := 1, teardowns := 0 }

/-- The whole `wsgi(env, start_response)` function: set up the context
(fresh default response), run `fn_exec(ctx, None)` over the sorted
middleware list (`None` as terminal: calling it would raise `TypeError`),
translate the outcome, and run the `finally` teardown exactly as the
source does — it executes once on every exit path. -/
def wsgi (render : String → List (String × String) → String)
    (traceOf : PyExn → String) (mws : List (Behavior PyVal)) : WsgiResult :=
  let out := wsgiTry render traceOf defaultResponse (route_entry mws (.exn .typeError)).2
  { out with teardowns := out.teardowns + 1 }

/-- `take_second` from `init_middlewares`: the sort key `elem[1]`, the
priority component of a middleware entry. -/
def take_second {α : Type} (elem : α × Int) : Int :=
  elem.2

/-- The sorting step of `init_middlewares`:
`self.middleware.sort(key=take_second)`.  Python's `list.sort` is a
stable ascending sort; modelled with the stable `List.mergeSort`. -/
def init_middlewares_sort {α : Type} (l : List (α × Int)) : List (α × Int) :=
  l.mergeSort (fun a b => decide (take_second a ≤ take_second b))

/-- What a handler wrapped by `view` returns before the wrapper inspects
it: a `dict` (key/value mapping) or any non-dict value (tagged only by a
description, since the wrapper ignores everything about it). -/
inductive ViewRet where
  | dict (m : List (String × String))
  | nonDict (descr : String)
deriving DecidableEq

/-- The error message raised by the `view` wrapper for a non-dict return. -/
def viewErrorMsg : String :=
  "Expect return a dict when using @view() decorator."

/-- The `_wrapper` built by the `view(path)` decorator, applied to the
wrapped handler's return value `r`: a dict is turned into
`Template(path, **r)` (template identifier `path`, model `r`), anything
else raises `ValueError`. -/
def view (path : String) : ViewRet → Except String Template
  | .dict m => .ok { template_name := path, model := m }
  | .nonDict _ => .error viewErrorMsg

/-! ### Chain dispatch lemmas -/

/-- When every middleware in a suffix passes through, `dispatch` invokes
each of them once in index order and then hits the out-of-range list read,
never reaching the terminal. -/
theorem dispatch_replicate_passThrough {α : Type} (tnext : Outcome α) (n : Nat) :
    ∀ i : Nat,
      dispatch tnext i (List.replicate n (Behavior.passThrough : Behavior α)) =
        ((List.range' i n).map Event.mw, Outcome.exn PyExn.indexError) := by
  induction n with
  | zero => intro i; rfl
  | succ n ih =>
    intro i
    rw [List.replicate_succ, List.range'_succ, List.map_cons]
    show (Event.mw i :: (dispatch tnext (i + 1) _).1, (dispatch tnext (i + 1) _).2) = _
    rw [ih (i + 1)]

/-- Dispatch of `pre ++ shortCircuit v :: post` starting at index `i`,
when every middleware of `pre` calls its continuation: indices
`i, …, i + pre.length` run once each, the short-circuit stops the chain,
and its value flows back out through the post-processors of `pre`. -/
theorem dispatch_shortCircuit_append {α : Type} (tnext : Outcome α) (v : α)
    (post : List (Behavior α)) :
    ∀ pre : List (Behavior α), (∀ b ∈ pre, callsNext b = true) →
      ∀ i : Nat,
        dispatch tnext i (pre ++ Behavior.shortCircuit v :: post) =
          ((List.range' i (pre.length + 1)).map Event.mw,
            Outcome.ok (pre.foldr postStep v)) := by
  intro pre
  induction pre with
  | nil => intro _ i; rfl
  | cons b pre ih =>
    intro h i
    have hb : callsNext b = true := h b (List.mem_cons_self b pre)
    have hpre : ∀ x ∈ pre, callsNext x = true := fun x hx => h x (List.mem_cons_of_mem _ hx)
    cases b with
    | shortCircuit w => simp [callsNext] at hb
    | raiseExn e => simp [callsNext] at hb
    | passThrough =>
      rw [List.cons_append, List.length_cons, List.range'_succ, List.map_cons]
      show (Event.mw i :: (dispatch tnext (i + 1) _).1, (dispatch tnext (i + 1) _).2) = _
      rw [ih hpre (i + 1)]
      rfl
    | postProcess f =>
      rw [List.cons_append, List.length_cons, List.range'_succ, List.map_cons]
      show (Event.mw i :: (dispatch tnext (i + 1) _).1,
        match (dispatch tnext (i + 1) _).2 with
        | Outcome.ok w => Outcome.ok (f w)
        | Outcome.exn e => Outcome.exn e) = _
      rw [ih hpre (i + 1)]
      rfl

/-- Folding the way-out transformation over a list of pure pass-through
middleware changes nothing. -/
theorem foldr_postStep_passThrough {α : Type} (v : α) :
    ∀ pre : List (Behavior α), (∀ b ∈ pre, b = Behavior.passThrough) →
      pre.foldr postStep v = v := by
  intro pre
  induction pre with
  | nil => intro _; rfl
  | cons b pre ih =>
    intro h
    rw [List.foldr_cons, h b (List.mem_cons_self b pre),
      ih (fun x hx => h x (List.mem_cons_of_mem _ hx))]
    rfl

/-! ### Claim theorems -/

/-- C1: the claim says that for every chain with a terminal handler, the
built entry point calls each middleware once in ascending order and then
the terminal exactly once, returning its result.  The code instead
evaluates `self.middleware[i][0]` before the `i == len(self.middleware)`
test, so once past the last middleware an `IndexError` is raised and
`fn = next` never executes: for a chain of `n` pass-through middleware the
trace is exactly `mw 0, …, mw (n-1)` — never `term` — and the outcome is
the `IndexError`, not the terminal's result.  This theorem evaluates the
code on those failing inputs. -/
theorem fn_route_never_reaches_terminal :
    (∀ (n : Nat) (tnext : Outcome String),
        route_entry (List.replicate n Behavior.passThrough) tnext =
          ((List.range' 0 n).map Event.mw, Outcome.exn PyExn.indexError)) ∧
    route_entry ([] : List (Behavior String)) (Outcome.ok "T") =
      ([], Outcome.exn PyExn.indexError) ∧
    Event.term ∉ (route_entry (List.replicate 3 Behavior.passThrough) (Outcome.ok "T")).1 := by
  refine ⟨fun n tnext => dispatch_replicate_passThrough tnext n 0, rfl, ?_⟩
  decide

/-- C2 counterexample: with the chain
`[postProcess (· ++ "!"), shortCircuit "x"]` the middleware at index 1
never calls its continuation, yet the dispatch result is `"x!"`, not its
own return value `"x"`: the outer middleware post-processes the value on
the way out, so the claim's "the value returned by that middleware becomes
the dispatch result" is false as stated. -/
theorem route_entry_shortCircuit_cex :
    route_entry [Behavior.postProcess (fun s => s ++ "!"), Behavior.shortCircuit "x"]
        (Outcome.ok "T") =
      ([Event.mw 0, Event.mw 1], Outcome.ok "x!") ∧
    (route_entry [Behavior.postProcess (fun s => s ++ "!"), Behavior.shortCircuit "x"]
        (Outcome.ok "T")).2 ≠ Outcome.ok "x" :=
  ⟨rfl, by decide⟩

/-- C2 (amended): if the middleware at index `i = pre.length` never calls
its continuation, no middleware at a greater index runs, the terminal
handler does not run, and its return value — as post-processed by the
enclosing middleware on the way out — becomes the dispatch result; it is
exactly the dispatch result when all enclosing middleware return their
continuation's result unchanged. -/
theorem route_entry_shortCircuit_amended {α : Type} (tnext : Outcome α)
    (pre post : List (Behavior α)) (v : α)
    (hpre : ∀ b ∈ pre, callsNext b = true) :
    route_entry (pre ++ Behavior.shortCircuit v :: post) tnext =
      ((List.range' 0 (pre.length + 1)).map Event.mw,
        Outcome.ok (pre.foldr postStep v)) ∧
    Event.term ∉ (route_entry (pre ++ Behavior.shortCircuit v :: post) tnext).1 ∧
    (∀ j : Nat,
      Event.mw j ∈ (route_entry (pre ++ Behavior.shortCircuit v :: post) tnext).1 →
        j ≤ pre.length) ∧
    ((∀ b ∈ pre, b = Behavior.passThrough) →
      (route_entry (pre ++ Behavior.shortCircuit v :: post) tnext).2 = Outcome.ok v) := by
  have h : route_entry (pre ++ Behavior.shortCircuit v :: post) tnext =
      ((List.range' 0 (pre.length + 1)).map Event.mw,
        Outcome.ok (pre.foldr postStep v)) :=
    dispatch_shortCircuit_append tnext v post pre hpre 0
  refine ⟨h, ?_, ?_, ?_⟩
  · rw [congrArg Prod.fst h]
    simp
  · intro j hj
    rw [congrArg Prod.fst h] at hj
    simp only [List.mem_map] at hj
    obtain ⟨a, ha, hae⟩ := hj
    obtain ⟨k, hk, rfl⟩ := List.mem_range'.mp ha
    cases Event.mw.inj hae
    omega
  · intro hall
    rw [congrArg Prod.snd h, foldr_postStep_passThrough v pre hall]

/-- Closed witness for the amended C2 theorem at the chain
`[passThrough, shortCircuit "x", passThrough]`. -/
theorem route_entry_shortCircuit_amended_witness :
    (route_entry ([Behavior.passThrough] ++ Behavior.shortCircuit "x" :: [Behavior.passThrough])
        (Outcome.ok "T")).2 = Outcome.ok "x" ∧
    Event.term ∉
      (route_entry ([Behavior.passThrough] ++ Behavior.shortCircuit "x" :: [Behavior.passThrough])
        (Outcome.ok "T")).1 := by
  have h := route_entry_shortCircuit_amended (Outcome.ok "T")
    [Behavior.passThrough] [Behavior.passThrough] "x"
    (fun b hb => by rw [List.mem_singleton.mp hb]; rfl)
  exact ⟨h.2.2.2 (fun b hb => List.mem_singleton.mp hb), h.2.1⟩

/-- C3: the result translation applies its rules in order: a `Template`
is rendered through the template-rendering collaborator and the rendered
text becomes the single body chunk; a `str` is UTF-8-encoded and wrapped
as the single bytes chunk (`"hello"` encodes to `b"hello"`); `None`
becomes the empty body. -/
theorem translate_rules (render : String → List (String × String) → String)
    (name : String) (model : List (String × String)) (s : String) :
    translate render (PyVal.template { template_name := name, model := model }) =
      [Chunk.text (render name model)] ∧
    translate render (PyVal.str s) = [Chunk.bytes (utf8 s)] ∧
    utf8 "hello" = [104, 101, 108, 108, 111] ∧
    translate render PyVal.none = [] :=
  ⟨rfl, rfl, rfl, rfl⟩

/-- C9: the `view(path)` wrapper turns a dict return into a `Template`
with template identifier `path` and the dict as model, and rejects any
non-dict return with the `ValueError` saying a dict (Python's key/value
mapping) must be returned, producing no result. -/
theorem view_mapping_contract (path : String) (m : List (String × String)) (d : String) :
    view path (ViewRet.dict m) = Except.ok { template_name := path, model := m } ∧
    view path (ViewRet.nonDict d) = Except.error viewErrorMsg ∧
    viewErrorMsg = "Expect return a dict when using @view() decorator." :=
  ⟨rfl, rfl, rfl⟩

/-- C10: with an empty middleware list, `dispatch(0)` indexes
`self.middleware[0]` before the end-of-chain test, so the terminal
continuation is never invoked (the trace is empty) and every request
yields the 500 unexpected-fault response, with the teardown still
performed once. -/
theorem wsgi_empty_middleware_500 (render : String → List (String × String) → String)
    (traceOf : PyExn → String) :
    wsgi render traceOf [] =
      { status := "500 Internal Server Error", headers := []
        body := [Chunk.text fault500Head,
          Chunk.text (htmlEscape (traceOf PyExn.indexError)), Chunk.text fault500Tail]
        logCount := 1, teardowns := 1 } ∧
    (route_entry ([] : List (Behavior PyVal)) (Outcome.exn PyExn.typeError)).1 = [] :=
  ⟨rfl, rfl⟩

/-- C4: when dispatch raises a failure other than a declared redirect or
declared HTTP error, the response has status "500 Internal Server Error"
with an empty header set, the body is the preformatted-HTML page whose
middle chunk is the stack trace with angle brackets escaped, exactly one
log entry is emitted, and the teardown runs. -/
theorem wsgi_unexpected_fault (render : String → List (String × String) → String)
    (traceOf : PyExn → String) (mws : List (Behavior PyVal)) (e : PyExn)
    (hdisp : (route_entry mws (Outcome.exn PyExn.typeError)).2 = Outcome.exn e)
    (hr : e.isRedirect = false) (hh : e.isHttpError = false) :
    wsgi render traceOf mws =
      { status := "500 Internal Server Error", headers := []
        body := [Chunk.text fault500Head, Chunk.text (htmlEscape (traceOf e)),
          Chunk.text fault500Tail]
        logCount := 1, teardowns := 1 } := by
  unfold wsgi
  rw [hdisp]
  cases e with
  | redirectError location status => simp [PyExn.isRedirect] at hr
  | httpError status => simp [PyExn.isHttpError] at hh
  | indexError => rfl
  | typeError => rfl
  | other msg => rfl

/-- Closed witness for C4: a middleware raising an arbitrary failure,
with a trace text containing angle brackets, yields the 500 page with the
escaped trace and one log entry. -/
theorem wsgi_unexpected_fault_witness :
    wsgi (fun _ _ => "") (fun _ => "boom <t>") [Behavior.raiseExn (PyExn.other "boom")] =
      { status := "500 Internal Server Error", headers := []
        body := [Chunk.text fault500Head, Chunk.text "boom &lt;t&gt;", Chunk.text fault500Tail]
        logCount := 1, teardowns := 1 } := by
  have h := wsgi_unexpected_fault (fun _ _ => "") (fun _ => "boom <t>")
    [Behavior.raiseExn (PyExn.other "boom")] (PyExn.other "boom") rfl rfl rfl
  rw [h]
  rfl

/-- C5: when dispatch raises a declared redirect carrying a target
location and a status, the response carries that status, its headers are
exactly the `Location` header set to the target, the body is empty, and
the teardown runs with no error logging. -/
theorem wsgi_redirect (render : String → List (String × String) → String)
    (traceOf : PyExn → String) (mws : List (Behavior PyVal)) (location status : String)
    (hdisp : (route_entry mws (Outcome.exn PyExn.typeError)).2 =
      Outcome.exn (PyExn.redirectError location status)) :
    wsgi render traceOf mws =
      { status := status, headers := [("Location", location)], body := []
        logCount := 0, teardowns := 1 } := by
  unfold wsgi
  rw [hdisp]
  rfl

/-- Closed witness for C5: raising a declared redirect with location
`/login` and status `302 Found`. -/
theorem wsgi_redirect_witness :
    wsgi (fun _ _ => "") (fun _ => "")
        [Behavior.raiseExn (PyExn.redirectError "/login" "302 Found")] =
      { status := "302 Found", headers := [("Location", "/login")], body := []
        logCount := 0, teardowns := 1 } ∧
    ("Location", "/login") ∈
      (wsgi (fun _ _ => "") (fun _ => "")
        [Behavior.raiseExn (PyExn.redirectError "/login" "302 Found")]).headers := by
  have h := wsgi_redirect (fun _ _ => "") (fun _ => "")
    [Behavior.raiseExn (PyExn.redirectError "/login" "302 Found")] "/login" "302 Found" rfl
  exact ⟨h, by rw [h]; exact List.mem_singleton.mpr rfl⟩

/-- C6: when dispatch raises a declared HTTP error carrying a status
line, the response uses that status line and the body is exactly the
minimal HTML page around the literal status text — no stack trace chunk
appears and nothing is logged. -/
theorem wsgi_http_error (render : String → List (String × String) → String)
    (traceOf : PyExn → String) (mws : List (Behavior PyVal)) (status : String)
    (hdisp : (route_entry mws (Outcome.exn PyExn.typeError)).2 =
      Outcome.exn (PyExn.httpError status)) :
    wsgi render traceOf mws =
      { status := status, headers := []
        body := [Chunk.text "<html><body><h1>", Chunk.text status,
          Chunk.text "</h1></body></html>"]
        logCount := 0, teardowns := 1 } ∧
    Chunk.text status ∈ (wsgi render traceOf mws).body := by
  have h : wsgi render traceOf mws =
      { status := status, headers := []
        body := [Chunk.text "<html><body><h1>", Chunk.text status,
          Chunk.text "</h1></body></html>"]
        logCount := 0, teardowns := 1 } := by
    unfold wsgi
    rw [hdisp]
    rfl
  refine ⟨h, ?_⟩
  rw [h]
  simp

/-- Closed witness for C6: raising a declared HTTP error with status
`404 Not Found`. -/
theorem wsgi_http_error_witness :
    wsgi (fun _ _ => "") (fun _ => "") [Behavior.raiseExn (PyExn.httpError "404 Not Found")] =
      { status := "404 Not Found", headers := []
        body := [Chunk.text "<html><body><h1>", Chunk.text "404 Not Found",
          Chunk.text "</h1></body></html>"]
        logCount := 0, teardowns := 1 } :=
  (wsgi_http_error (fun _ _ => "") (fun _ => "")
    [Behavior.raiseExn (PyExn.httpError "404 Not Found")] "404 Not Found" rfl).1

/-- C7: the `finally` teardown of the per-request context runs exactly
once before `wsgi` returns, whatever the dispatch outcome — normal
completion, redirect, declared HTTP error, or unexpected fault. -/
theorem wsgi_teardown_once (render : String → List (String × String) → String)
    (traceOf : PyExn → String) (mws : List (Behavior PyVal)) :
    (wsgi render traceOf mws).teardowns = 1 := by
  unfold wsgi
  cases hd : (route_entry mws (Outcome.exn PyExn.typeError)).2 with
  | ok v => rfl
  | exn e => cases e <;> rfl

/-- C8: after middleware initialization, the middleware sequence is the
stable ascending sort of the registered entries by their second component
(the priority): the result is sorted, is a permutation of the registered
entries, and entries of equal priority keep their registration order
(the subsequence at any fixed priority is unchanged). -/
theorem init_middlewares_sorted_stable {α : Type} (l : List (α × Int)) :
    List.Sorted (fun a b => take_second a ≤ take_second b) (init_middlewares_sort l) ∧
    List.Perm (init_middlewares_sort l) l ∧
    ∀ p : Int, (init_middlewares_sort l).filter (fun e => e.2 == p) =
      l.filter (fun e => e.2 == p) := by
  have trans : ∀ a b c : α × Int,
      decide (take_second a ≤ take_second b) → decide (take_second b ≤ take_second c) →
        decide (take_second a ≤ take_second c) := by
    intro a b c hab hbc
    simp only [decide_eq_true_eq] at hab hbc ⊢
    exact le_trans hab hbc
  have total : ∀ a b : α × Int,
      decide (take_second a ≤ take_second b) || decide (take_second b ≤ take_second a) := by
    intro a b
    simp only [Bool.or_eq_true, decide_eq_true_eq]
    exact le_total _ _
  refine ⟨?_, List.mergeSort_perm l _, ?_⟩
  · exact (List.sorted_mergeSort trans total l).imp fun hab => of_decide_eq_true hab
  · intro p
    have hfs : (l.filter (fun e => e.2 == p)).filter (fun e => e.2 == p) =
        l.filter (fun e => e.2 == p) :=
      List.filter_eq_self.mpr fun a ha => (List.mem_filter.mp ha).2
    have hsub : List.Sublist (l.filter (fun e => e.2 == p)) (init_middlewares_sort l) := by
      apply List.sublist_mergeSort trans total
      · refine List.pairwise_of_forall_mem_list ?_
        intro a ha b hb
        have ha2 : a.2 = p := by simpa using (List.mem_filter.mp ha).2
        have hb2 : b.2 = p := by simpa using (List.mem_filter.mp hb).2
        simp [take_second, ha2, hb2]
      · exact List.filter_sublist l
    have hsubf : List.Sublist (l.filter (fun e => e.2 == p))
        ((init_middlewares_sort l).filter (fun e => e.2 == p)) := by
      have := hsub.filter (fun e => e.2 == p)
      rwa [hfs] at this
    have hlen : (l.filter (fun e => e.2 == p)).length =
        ((init_middlewares_sort l).filter (fun e => e.2 == p)).length :=
      (((List.mergeSort_perm l _).filter (fun e => e.2 == p)).length_eq).symm
    exact (hsubf.eq_of_length hlen).symm

end Digwebs
